import Mathlib

/-!
Verification of the TitleCardMaker image-composition core: a shallow
embedding of `modules/cards/MarvelTitleCard.py`, `modules/GenreMaker.py`
and the render-interface contract of `modules/ImageMagickInterface.py`.

Numbers that Python handles as `int`/`float` are embedded as `ℚ` (all the
arithmetic the card code performs is exact on rationals; Python float
division is exact for the quantities proved about here).  ImageMagick
directives, which the Python code assembles as f-strings, are embedded as
a structured instruction type `Instr` so that offsets, gravity anchors and
rectangle coordinates are carried exactly.  External effects (the metrics
provider `get_text_dimensions`, the process execution inside
`ImageMagickInterface.run`, and the existence of the source file on disk)
are passed in as explicit oracle parameters.
-/

set_option autoImplicit false

namespace TitleCardMaker

/-- Modelled from the spec: the base card type's canvas width
(`canvas 3200×1800`); the base class itself is not among the sources. -/
def WIDTH : ℚ := 3200

/-- Modelled from the spec: the base card type's canvas height. -/
def HEIGHT : ℚ := 1800

/-- Modelled from the spec: the base card type's full card geometry string. -/
def TITLE_CARD_SIZE : String := "3200x1800"

/-- `Coordinate`: a single x/y point (MarvelTitleCard.py lines 8-17). -/
structure Coordinate where
  x : ℚ
  y : ℚ
deriving DecidableEq, Repr

/-- `Rectangle`: a movable SVG rectangle given by two coordinates
(MarvelTitleCard.py lines 20-33). -/
structure Rectangle where
  start : Coordinate
  stop : Coordinate
deriving DecidableEq, Repr

/-- One ImageMagick directive.  Each constructor corresponds to one
f-string the Python code appends to a command list; the numeric and text
payloads are kept structured instead of formatted. -/
inductive Instr where
  | load (path : String)
  | image (path : String)
  | write (path : String)
  | font (file : String)
  | fill (color : String)
  | pointsize (size : ℚ)
  | kerning (k : ℚ)
  | interlineSpacing (s : ℚ)
  | interwordSpacing (s : ℚ)
  | gravity (anchor : String)
  | annotate (x : ℚ) (y : ℚ) (text : String)
  | draw (r : Rectangle)
  | resizeWidth (w : ℚ)
  | resizeGeometry (g : String)
  | extent (g : String)
  | composite
  | borderColor (color : String)
  | borderGeometry (g : String)
deriving DecidableEq, Repr

/-- `Rectangle.draw`: emit the fill-rectangle directive for this rectangle
(MarvelTitleCard.py line 31-33). -/
def Rectangle.draw (r : Rectangle) : Instr :=
  Instr.draw r

/-- A text measurement result (`Dimensions` from ImageMagickInterface). -/
structure Dimensions where
  width : ℚ
  height : ℚ
deriving DecidableEq, Repr

/-- The metrics provider: `get_text_dimensions(commands, width=, height=)`
of the base card type, an external collaborator.  The two string arguments
are the width and height aggregation modes. -/
abbrev Measure : Type :=
  List Instr → String → String → Dimensions

/-- The process executor behind `ImageMagickInterface.run`: takes a command
and returns the captured `(stdout, stderr)` pair. -/
abbrev Exec : Type :=
  List Instr → String × String

/-- One `str.replace` pass for a single-character pattern whose
replacement is a backslash followed by that same character. -/
def replace_with_escaped (t : Char) : List Char → List Char
  | [] => []
  | c :: rest =>
      if c = t then Char.ofNat 92 :: c :: replace_with_escaped t rest
      else c :: replace_with_escaped t rest

/-- `ImageMagickInterface.escape_chars` (lines 43-60): the composition
`string.replace('"', r'\"').replace('`', r'\`')`, one pass per pattern;
character 34 is the double quote and character 96 the backtick. -/
def escape_chars (s : String) : String :=
  ⟨replace_with_escaped (Char.ofNat 96)
    (replace_with_escaped (Char.ofNat 34) s.data)⟩

/-- Python booleans coerce to `0`/`1` in arithmetic
(`2 - self.hide_season_text - self.hide_episode_text`). -/
def ratOfBool (b : Bool) : ℚ :=
  if b then 1 else 0

/-- The state of one Marvel title card build: the `__slots__` of
`MarvelTitleCard`, plus the two opaque instruction groups
(`resize_and_style`, `resize_output`) the base class supplies. -/
structure MarvelTitleCard where
  source_file : String
  output_file : String
  title_text : String
  season_text : String
  episode_text : String
  hide_season_text : Bool
  hide_episode_text : Bool
  font_color : String
  font_file : String
  font_interline_spacing : ℚ
  font_interword_spacing : ℚ
  font_kerning : ℚ
  font_size : ℚ
  font_size_modifier : ℚ
  font_vertical_shift : ℚ
  border_color : String
  border_size : ℚ
  episode_text_color : String
  episode_text_position : String
  fit_text : Bool
  hide_border : Bool
  text_box_color : String
  text_box_height : ℚ
  resize_and_style : List Instr
  resize_output : List Instr
deriving DecidableEq, Repr

namespace MarvelTitleCard

/-- `MarvelTitleCard.TITLE_COLOR`. -/
def TITLE_COLOR : String := "white"

/-- `MarvelTitleCard.TITLE_FONT` (resolved reference-directory path). -/
def TITLE_FONT : String := "ref/marvel/Qualion ExtraBold.ttf"

/-- `MarvelTitleCard.EPISODE_TEXT_COLOR`. -/
def EPISODE_TEXT_COLOR : String := "#C9C9C9"

/-- `MarvelTitleCard.EPISODE_TEXT_FONT` (resolved path). -/
def EPISODE_TEXT_FONT : String := "ref/marvel/Qualion ExtraBold.ttf"

/-- `MarvelTitleCard.DEFAULT_BORDER_SIZE`. -/
def DEFAULT_BORDER_SIZE : ℚ := 55

/-- `MarvelTitleCard.DEFAULT_BORDER_COLOR`. -/
def DEFAULT_BORDER_COLOR : String := "white"

/-- `MarvelTitleCard.DEFAULT_TEXT_BOX_COLOR`. -/
def DEFAULT_TEXT_BOX_COLOR : String := "black"

/-- `MarvelTitleCard.DEFAULT_TEXT_BOX_HEIGHT`. -/
def DEFAULT_TEXT_BOX_HEIGHT : ℚ := 200

/-- `MarvelTitleCard.__init__` (lines 92-155): escapes the text fields and
initializes `font_size_modifier` to `1.0`.  The `resize_and_style` and
`resize_output` groups come from the base class and are passed through. -/
def init (source_file card_file title_text season_text episode_text : String)
    (hide_season_text hide_episode_text : Bool)
    (font_color font_file : String)
    (font_interline_spacing font_interword_spacing : ℚ)
    (font_kerning font_size font_vertical_shift : ℚ)
    (border_color : String) (border_size : ℚ)
    (episode_text_color episode_text_location : String)
    (fit_text hide_border : Bool)
    (text_box_color : String) (text_box_height : ℚ)
    (resize_and_style resize_output : List Instr) : MarvelTitleCard where
  source_file := source_file
  output_file := card_file
  title_text := escape_chars title_text
  season_text := escape_chars season_text
  episode_text := escape_chars episode_text
  hide_season_text := hide_season_text
  hide_episode_text := hide_episode_text
  font_color := font_color
  font_file := font_file
  font_interline_spacing := font_interline_spacing
  font_interword_spacing := font_interword_spacing
  font_kerning := font_kerning
  font_size := font_size
  font_size_modifier := 1
  font_vertical_shift := font_vertical_shift
  border_color := border_color
  border_size := border_size
  episode_text_color := episode_text_color
  episode_text_position := episode_text_location
  fit_text := fit_text
  hide_border := hide_border
  text_box_color := text_box_color
  text_box_height := text_box_height
  resize_and_style := resize_and_style
  resize_output := resize_output

/-- `MarvelTitleCard.title_text_commands` (lines 158-185). -/
def title_text_commands (c : MarvelTitleCard) : List Instr :=
  if c.title_text.length = 0 then []
  else
    [Instr.font c.font_file,
     Instr.fill c.font_color,
     Instr.pointsize (150 * c.font_size * c.font_size_modifier),
     Instr.kerning (1 * c.font_kerning),
     Instr.interlineSpacing c.font_interline_spacing,
     Instr.interwordSpacing c.font_interword_spacing,
     Instr.gravity "center",
     Instr.annotate 0 (820 + c.font_vertical_shift) c.title_text]

/-- `MarvelTitleCard.index_text_commands` (lines 188-250). -/
def index_text_commands (c : MarvelTitleCard)
    (title_text_dimensions : Dimensions) : List Instr :=
  if c.hide_season_text && c.hide_episode_text then []
  else
    let y_position : ℚ := 810 + c.font_vertical_shift
    let season_text_command : List Instr :=
      if c.hide_season_text then []
      else if c.episode_text_position = "compact" then
        [Instr.gravity "east",
         Instr.annotate ((WIDTH + title_text_dimensions.width) / 2 + 20)
           y_position c.season_text]
      else
        [Instr.gravity "west",
         Instr.annotate c.border_size y_position c.season_text]
    let episode_text_command : List Instr :=
      if c.hide_episode_text then []
      else if c.episode_text_position = "compact" then
        [Instr.gravity "west",
         Instr.annotate ((WIDTH + title_text_dimensions.width) / 2 + 20)
           y_position c.episode_text]
      else
        [Instr.gravity "east",
         Instr.annotate c.border_size y_position c.episode_text]
    [Instr.font EPISODE_TEXT_FONT,
     Instr.fill c.episode_text_color,
     Instr.pointsize (70 * c.font_size_modifier),
     Instr.kerning 1,
     Instr.interwordSpacing 15]
    ++ season_text_command ++ episode_text_command

/-- `MarvelTitleCard.border_commands` (lines 253-285). -/
def border_commands (c : MarvelTitleCard) : List Instr :=
  if c.hide_border then []
  else
    let left_rectangle : Rectangle :=
      ⟨⟨0, 0⟩, ⟨c.border_size, HEIGHT⟩⟩
    let top_rectangle : Rectangle :=
      ⟨⟨0, 0⟩, ⟨WIDTH, c.border_size⟩⟩
    let right_rectangle : Rectangle :=
      ⟨⟨WIDTH - c.border_size, 0⟩, ⟨WIDTH, HEIGHT⟩⟩
    [Instr.fill c.border_color,
     left_rectangle.draw,
     top_rectangle.draw,
     right_rectangle.draw]

/-- `MarvelTitleCard.bottom_border_commands` (lines 288-305). -/
def bottom_border_commands (c : MarvelTitleCard) : List Instr :=
  [Instr.fill c.text_box_color,
   Rectangle.draw ⟨⟨0, HEIGHT - c.text_box_height⟩, ⟨WIDTH, HEIGHT⟩⟩]

/-- A Python dict of extras, embedded as an association list whose keys
are unique and kept in insertion order. -/
abbrev Extras : Type := List (String × String)

/-- `extras[key] = value` guarded by `if key in extras` (the update pattern
of `modify_extras`): replaces the value at `key` when present, touches
nothing otherwise. -/
def setIfPresent (d : Extras) (key value : String) : Extras :=
  if d.any (fun p => p.1 = key) then
    d.map (fun p => if p.1 = key then (p.1, value) else p)
  else d

/-- `MarvelTitleCard.modify_extras` (lines 308-329): when the font is not
custom, reset `episode_text_color` and `border_color` in place when those
keys are present.  `custom_season_titles` is accepted and never read. -/
def modify_extras (extras : Extras)
    (custom_font : Bool) (custom_season_titles : Bool) : Extras :=
  if !custom_font then
    setIfPresent (setIfPresent extras "episode_text_color" EPISODE_TEXT_COLOR)
      "border_color" "white"
  else extras

/-- One call to the metrics provider: the measured command list and the
width/height aggregation modes. -/
abbrev MeasureCall : Type := List Instr × String × String

/-- The local `title_text_dimensions` of `create` (line 385): the measured
dimensions of the title-text commands, width mode `max`, height mode
`sum`. -/
def title_text_dimensions (m : Measure) (c : MarvelTitleCard) : Dimensions :=
  m (title_text_commands c) "max" "sum"

/-- The local `index_text_dimensions` of `create` (line 392): the measured
dimensions of the index-text commands built from the initial title
dimensions, width mode `sum`, height mode `sum`. -/
def index_text_dimensions (m : Measure) (c : MarvelTitleCard) : Dimensions :=
  m (index_text_commands c (title_text_dimensions m c)) "sum" "sum"

/-- The local `margin` of `create` (line 399):
`20 * (2 - hide_season_text - hide_episode_text)`. -/
def margin (c : MarvelTitleCard) : ℚ :=
  20 * (2 - ratOfBool c.hide_season_text - ratOfBool c.hide_episode_text)

/-- The locals `width` and `text_width` of `create` (lines 398-400):
title width plus index width plus margin. -/
def text_width (m : Measure) (c : MarvelTitleCard) : ℚ :=
  (title_text_dimensions m c).width + (index_text_dimensions m c).width
    + margin c

/-- The local `max_width` of `create` (line 401): the interior width
`WIDTH - 2 * border_size`. -/
def max_width (c : MarvelTitleCard) : ℚ :=
  WIDTH - 2 * c.border_size

/-- The card after the overflow assignment
`self.font_size_modifier = max_width / text_width` (line 404). -/
def fitted_card (m : Measure) (c : MarvelTitleCard) : MarvelTitleCard :=
  { c with font_size_modifier := max_width c / text_width m c }

/-- The text-fit step of `MarvelTitleCard.create` (lines 384-409): measure
the title, then (when `fit_text` is set) measure the index text, compare
the combined width plus margin against the interior width, and shrink
`font_size_modifier` and re-measure the title on overflow.  Returns the
card state and title dimensions the final command is built from, with the
list of metrics-provider calls made; `none` models the
`ZeroDivisionError` Python raises at `max_width / text_width` when
`text_width == 0`. -/
def fit_results (m : Measure) (c : MarvelTitleCard) :
    Option (MarvelTitleCard × Dimensions × List MeasureCall) :=
  if c.fit_text then
    if text_width m c > max_width c then
      if text_width m c = 0 then none
      else
        some (fitted_card m c,
          title_text_dimensions m (fitted_card m c),
          [(title_text_commands c, "max", "sum"),
           (index_text_commands c (title_text_dimensions m c), "sum", "sum"),
           (title_text_commands (fitted_card m c), "max", "sum")])
    else
      some (c, title_text_dimensions m c,
        [(title_text_commands c, "max", "sum"),
         (index_text_commands c (title_text_dimensions m c), "sum", "sum")])
  else
    some (c, title_text_dimensions m c,
      [(title_text_commands c, "max", "sum")])

/-- The single command `MarvelTitleCard.create` joins and submits
(lines 411-427), in the literal order of the Python list. -/
def build_command (c : MarvelTitleCard) (td : Dimensions) : List Instr :=
  [Instr.load c.source_file]
  ++ c.resize_and_style
  ++ [Instr.resizeWidth (WIDTH - 2 * c.border_size),
      Instr.extent TITLE_CARD_SIZE]
  ++ border_commands c
  ++ bottom_border_commands c
  ++ title_text_commands c
  ++ index_text_commands c td
  ++ c.resize_output
  ++ [Instr.write c.output_file]

/-- Observable outcome of one `create` call: the final modifier, the
command submitted to `ImageMagickInterface.run`, and the metrics calls. -/
structure BuildResult where
  font_size_modifier : ℚ
  command : List Instr
  measurements : List MeasureCall
deriving DecidableEq, Repr

/-- `MarvelTitleCard.create` (lines 378-429): run the text-fit step, build
the command, submit it to the render engine.  `run`'s returned
stdout/stderr pair is discarded, exactly as in the source.  The
`source_exists` argument models whether the source image is on disk; the
method body never consults it (it performs no existence check). -/
def create (m : Measure) (run : Exec) (c : MarvelTitleCard)
    (source_exists : Bool) : Option BuildResult :=
  match fit_results m c with
  | none => none
  | some (c2, td2, calls) =>
      let command := build_command c2 td2
      let _discarded := run command
      some ⟨c2.font_size_modifier, command, calls⟩

end MarvelTitleCard

/-- The genre-card maker's construction state (`GenreMaker.__init__`,
GenreMaker.py lines 24-41). -/
structure GenreMaker where
  source : String
  genre : String
  output : String
deriving DecidableEq, Repr

namespace GenreMaker

/-- `GenreMaker.FONT`. -/
def FONT : String := "modules/ref/MyriadRegular.ttf"

/-- `GenreMaker.__GENRE_GRADIENT`. -/
def GENRE_GRADIENT : String := "modules/ref/genre_gradient.png"

/-- `GenreMaker.__RESIZED_SOURCE`: fixed intermediate path. -/
def RESIZED_SOURCE : String := "modules/.objects/resized.png"

/-- `GenreMaker.__SOURCE_WITH_GRADIENT`: fixed intermediate path. -/
def SOURCE_WITH_GRADIENT : String := "modules/.objects/swg.png"

/-- The command `GenreMaker.__resize_source` submits (lines 52-58). -/
def resize_source_command (g : GenreMaker) : List Instr :=
  [Instr.load g.source,
   Instr.resizeGeometry "946x1446^",
   Instr.gravity "center",
   Instr.extent "946x1446",
   Instr.write RESIZED_SOURCE]

/-- The command `GenreMaker.__add_gradient` submits (lines 74-80). -/
def add_gradient_command : List Instr :=
  [Instr.load RESIZED_SOURCE,
   Instr.image GENRE_GRADIENT,
   Instr.gravity "south",
   Instr.composite,
   Instr.write SOURCE_WITH_GRADIENT]

/-- The command `GenreMaker.__add_text_and_border` submits (lines 97-108). -/
def add_text_and_border_command (g : GenreMaker) : List Instr :=
  [Instr.load SOURCE_WITH_GRADIENT,
   Instr.gravity "south",
   Instr.font FONT,
   Instr.borderColor "white",
   Instr.borderGeometry "27x27",
   Instr.fill "white",
   Instr.pointsize 159,
   Instr.kerning (9 / 4),
   Instr.annotate 0 100 g.genre,
   Instr.write g.output]

/-- Observable outcome of one `GenreMaker.create` call: the error messages
logged, the render-engine invocations made (in order), and the
intermediate files deleted.  The output file is only ever written by the
render engine as part of the last invocation, so `runs = []` entails that
no output was written. -/
structure CreateResult where
  errors : List String
  runs : List (List Instr)
  deleted : List String
deriving DecidableEq, Repr

/-- `GenreMaker.create` (lines 115-140): abort with a logged error when
the source image does not exist; otherwise submit the three pipeline
commands and delete the two intermediates.  Each `run` result is
discarded, exactly as in the source.  `source_exists` models
`self.source.exists()`, and the logged message is modelled without the
interpolated source path. -/
def create (run : Exec) (g : GenreMaker) (source_exists : Bool) :
    CreateResult :=
  if !source_exists then
    { errors := ["Cannot create genre card, source does not exist."],
      runs := [], deleted := [] }
  else
    let c1 := resize_source_command g
    let _o1 := run c1
    let c2 := add_gradient_command
    let _o2 := run c2
    let c3 := add_text_and_border_command g
    let _o3 := run c3
    { errors := [], runs := [c1, c2, c3],
      deleted := [RESIZED_SOURCE, SOURCE_WITH_GRADIENT] }

end GenreMaker

/-- The y-offsets of all annotate directives in an instruction list. -/
def annotate_ys : List Instr → List ℚ
  | [] => []
  | Instr.annotate _ y _ :: rest => y :: annotate_ys rest
  | _ :: rest => annotate_ys rest

/-- The rectangles of all draw directives in an instruction list. -/
def drawn_rectangles : List Instr → List Rectangle
  | [] => []
  | Instr.draw r :: rest => r :: drawn_rectangles rest
  | _ :: rest => drawn_rectangles rest

/-- A metrics provider measuring everything as 100×50, used for concrete
evaluations. -/
def m100 : Measure := fun _ _ _ => ⟨100, 50⟩

/-- A metrics provider measuring everything as 0×0. -/
def mzero : Measure := fun _ _ _ => ⟨0, 0⟩

/-- A metrics provider agreeing with `m100` everywhere except at a
height-aggregation mode (`"weird"`) that no build ever requests. -/
def m100b : Measure := fun _ _ b =>
  if b = "weird" then ⟨0, 0⟩ else ⟨100, 50⟩

/-- A process executor whose output streams are empty (a clean render). -/
def exec_ok : Exec := fun _ => ("", "")

/-- A process executor whose every invocation reports a failure on its
stderr stream. -/
def exec_err : Exec := fun _ => ("", "convert: no decode delegate")

/-- A representative card configuration built through
`MarvelTitleCard.init` with the class defaults. -/
def sample_card : MarvelTitleCard :=
  MarvelTitleCard.init "source.jpg" "card.jpg"
    "THE TITLE" "SEASON 1" "EPISODE 1" false false
    MarvelTitleCard.TITLE_COLOR MarvelTitleCard.TITLE_FONT 0 0 1 1 0
    MarvelTitleCard.DEFAULT_BORDER_COLOR MarvelTitleCard.DEFAULT_BORDER_SIZE
    MarvelTitleCard.EPISODE_TEXT_COLOR "fixed" true false
    MarvelTitleCard.DEFAULT_TEXT_BOX_COLOR
    MarvelTitleCard.DEFAULT_TEXT_BOX_HEIGHT [] []

/-- A representative genre-card maker. -/
def sample_genre : GenreMaker :=
  ⟨"poster-source.jpg", "HORROR", "genre-card.jpg"⟩

/-- `sample_card` with a 1500-pixel border: under `m100` the interior
width is 200 while the combined text width is 240, so the fit step
engages. -/
def card1500 : MarvelTitleCard := { sample_card with border_size := 1500 }

/-- `sample_card` with a border wider than half the canvas: the interior
width `WIDTH - 2 * 2000` is negative. -/
def card2000 : MarvelTitleCard := { sample_card with border_size := 2000 }

/-- A card with no title, both index fields hidden and an oversized
border: under `mzero` the combined text width is 0 while `max_width` is
negative. -/
def card_degenerate : MarvelTitleCard :=
  { sample_card with
    title_text := ""
    hide_season_text := true
    hide_episode_text := true
    border_size := 2000 }

/-- Replacing the value at an absent key is a no-op on every entry. -/
theorem map_replace_of_not_mem (d : MarvelTitleCard.Extras) (key value : String)
    (h : ∀ p ∈ d, p.1 ≠ key) :
    d.map (fun p => if p.1 = key then (p.1, value) else p) = d := by
  induction d with
  | nil => rfl
  | cons hd tl ih =>
      simp only [List.map_cons]
      rw [if_neg (h hd (List.mem_cons_self hd tl)),
        ih (fun p hp => h p (List.mem_cons_of_mem hd hp))]

/-- `setIfPresent` is pointwise value replacement at the given key: the
presence guard only short-circuits a map that would be the identity. -/
theorem setIfPresent_eq (d : MarvelTitleCard.Extras) (key value : String) :
    MarvelTitleCard.setIfPresent d key value
      = d.map (fun p => if p.1 = key then (p.1, value) else p) := by
  unfold MarvelTitleCard.setIfPresent
  split
  · rfl
  · rename_i h
    refine (map_replace_of_not_mem d key value fun p hp hk => h ?_).symm
    exact List.any_eq_true.mpr ⟨p, hp, by simp [hk]⟩

/-- Closed form of `modify_extras`: identity when the font is custom, and
otherwise a pointwise replacement at the two color keys. -/
theorem modify_extras_eq (extras : MarvelTitleCard.Extras)
    (custom_font custom_season_titles : Bool) :
    MarvelTitleCard.modify_extras extras custom_font custom_season_titles
      = if custom_font then extras
        else extras.map (fun p =>
          if p.1 = "episode_text_color" then
            (p.1, MarvelTitleCard.EPISODE_TEXT_COLOR)
          else if p.1 = "border_color" then (p.1, "white")
          else p) := by
  cases custom_font with
  | true => rfl
  | false =>
      simp only [MarvelTitleCard.modify_extras, Bool.not_false, if_true,
        Bool.false_eq_true, if_false]
      rw [setIfPresent_eq, setIfPresent_eq, List.map_map]
      refine congrFun (congrArg List.map (funext fun p => ?_)) extras
      by_cases h1 : p.1 = "episode_text_color"
      · have h2 : ¬ p.1 = "border_color" := by rw [h1]; decide
        simp [Function.comp, h1, h2]
      · by_cases h2 : p.1 = "border_color" <;>
          simp [Function.comp, h1, h2]

/-- `annotate_ys` distributes over list concatenation. -/
theorem annotate_ys_append (l1 l2 : List Instr) :
    annotate_ys (l1 ++ l2) = annotate_ys l1 ++ annotate_ys l2 := by
  induction l1 with
  | nil => rfl
  | cons hd tl ih => cases hd <;> simp [annotate_ys, ih]

/-- `create` as a map over the text-fit step: the submitted command is
built from the fitted card and its re-measured title dimensions, and the
executor's output is dropped. -/
theorem create_eq (m : Measure) (run : Exec) (c : MarvelTitleCard)
    (source_exists : Bool) :
    MarvelTitleCard.create m run c source_exists
      = (MarvelTitleCard.fit_results m c).map
          (fun p => ⟨p.1.font_size_modifier,
            MarvelTitleCard.build_command p.1 p.2.1, p.2.2⟩) := by
  rcases h : MarvelTitleCard.fit_results m c with _ | ⟨c2, td2, calls⟩ <;>
    simp [MarvelTitleCard.create, h]

/-- The text-fit step only reads the metrics provider at the calls it
records: any provider agreeing on those calls yields the same result. -/
theorem fit_results_congr (m m2 : Measure) (c c2 : MarvelTitleCard)
    (td2 : Dimensions) (calls : List MarvelTitleCard.MeasureCall)
    (h : MarvelTitleCard.fit_results m c = some (c2, td2, calls))
    (hagree : ∀ p ∈ calls, m2 p.1 p.2.1 p.2.2 = m p.1 p.2.1 p.2.2) :
    MarvelTitleCard.fit_results m2 c = some (c2, td2, calls) := by
  unfold MarvelTitleCard.fit_results at h ⊢
  by_cases hf : c.fit_text = true
  · rw [if_pos hf] at h ⊢
    by_cases hgt : MarvelTitleCard.text_width m c > MarvelTitleCard.max_width c
    · rw [if_pos hgt] at h
      by_cases hzero : MarvelTitleCard.text_width m c = 0
      · rw [if_pos hzero] at h
        exact Option.noConfusion h
      · rw [if_neg hzero] at h
        simp only [Option.some.injEq, Prod.mk.injEq] at h
        obtain ⟨rfl, rfl, rfl⟩ := h
        have h1 := hagree
          (MarvelTitleCard.title_text_commands c, "max", "sum") (by simp)
        have h2 := hagree
          (MarvelTitleCard.index_text_commands c
            (MarvelTitleCard.title_text_dimensions m c), "sum", "sum")
          (by simp)
        have h3 := hagree
          (MarvelTitleCard.title_text_commands
            (MarvelTitleCard.fitted_card m c), "max", "sum") (by simp)
        have e1 : MarvelTitleCard.title_text_dimensions m2 c
            = MarvelTitleCard.title_text_dimensions m c := h1
        have e2 : MarvelTitleCard.index_text_dimensions m2 c
            = MarvelTitleCard.index_text_dimensions m c := by
          unfold MarvelTitleCard.index_text_dimensions
          rw [e1, h2]
        have etw : MarvelTitleCard.text_width m2 c
            = MarvelTitleCard.text_width m c := by
          unfold MarvelTitleCard.text_width
          rw [e1, e2]
        have efc : MarvelTitleCard.fitted_card m2 c
            = MarvelTitleCard.fitted_card m c := by
          unfold MarvelTitleCard.fitted_card
          rw [etw]
        have e3 : MarvelTitleCard.title_text_dimensions m2
            (MarvelTitleCard.fitted_card m c)
            = MarvelTitleCard.title_text_dimensions m
              (MarvelTitleCard.fitted_card m c) := h3
        rw [if_pos (show MarvelTitleCard.text_width m2 c
              > MarvelTitleCard.max_width c by rw [etw]; exact hgt),
          if_neg (show ¬ MarvelTitleCard.text_width m2 c = 0 by
            rw [etw]; exact hzero),
          efc, e1, e3]
    · rw [if_neg hgt] at h
      simp only [Option.some.injEq, Prod.mk.injEq] at h
      obtain ⟨rfl, rfl, rfl⟩ := h
      have h1 := hagree
        (MarvelTitleCard.title_text_commands c, "max", "sum") (by simp)
      have h2 := hagree
        (MarvelTitleCard.index_text_commands c
          (MarvelTitleCard.title_text_dimensions m c), "sum", "sum")
        (by simp)
      have e1 : MarvelTitleCard.title_text_dimensions m2 c
          = MarvelTitleCard.title_text_dimensions m c := h1
      have e2 : MarvelTitleCard.index_text_dimensions m2 c
          = MarvelTitleCard.index_text_dimensions m c := by
        unfold MarvelTitleCard.index_text_dimensions
        rw [e1, h2]
      have etw : MarvelTitleCard.text_width m2 c
          = MarvelTitleCard.text_width m c := by
        unfold MarvelTitleCard.text_width
        rw [e1, e2]
      rw [if_neg (show ¬ MarvelTitleCard.text_width m2 c
            > MarvelTitleCard.max_width c by rw [etw]; exact hgt), e1]
  · rw [if_neg hf] at h ⊢
    simp only [Option.some.injEq, Prod.mk.injEq] at h ⊢
    obtain ⟨rfl, rfl, rfl⟩ := h
    have h1 := hagree
      (MarvelTitleCard.title_text_commands c, "max", "sum") (by simp)
    have e1 : MarvelTitleCard.title_text_dimensions m2 c
        = MarvelTitleCard.title_text_dimensions m c := h1
    exact ⟨rfl, e1, rfl⟩

/-- Claim C3 (amended): `GenreMaker.create` aborts on a missing source —
it logs the missing-source error and returns with no render-engine
invocation and no deletion, so no output is written — whereas
`MarvelTitleCard.create` performs no existence check at all: its result
is identical whether or not the source exists. -/
theorem missing_source_abort :
    (∀ (run : Exec) (g : GenreMaker),
      GenreMaker.create run g false
        = { errors := ["Cannot create genre card, source does not exist."],
            runs := [], deleted := [] })
    ∧ (∀ (m : Measure) (run : Exec) (c : MarvelTitleCard),
      MarvelTitleCard.create m run c false
        = MarvelTitleCard.create m run c true) :=
  ⟨fun _ _ => rfl, fun _ _ _ => rfl⟩

/-- Under `m100`, `sample_card` does not overflow: combined text width
240 against interior width 3090, so the fit step leaves the card as is. -/
theorem fit_results_m100_sample_card :
    MarvelTitleCard.fit_results m100 sample_card
      = some (sample_card, ⟨100, 50⟩,
          [(MarvelTitleCard.title_text_commands sample_card, "max", "sum"),
           (MarvelTitleCard.index_text_commands sample_card ⟨100, 50⟩,
             "sum", "sum")]) := by
  unfold MarvelTitleCard.fit_results
  have hfit : sample_card.fit_text = true := rfl
  have hno : ¬(MarvelTitleCard.text_width m100 sample_card
      > MarvelTitleCard.max_width sample_card) := by
    norm_num [MarvelTitleCard.text_width, MarvelTitleCard.max_width,
      MarvelTitleCard.title_text_dimensions,
      MarvelTitleCard.index_text_dimensions, MarvelTitleCard.margin,
      ratOfBool, m100, sample_card, MarvelTitleCard.init, WIDTH,
      MarvelTitleCard.DEFAULT_BORDER_SIZE]
  rw [if_pos hfit, if_neg hno]
  rfl

/-- Claim C3 counterexample: a Marvel card build whose source image does
not exist still reaches the render engine — `create` returns a build
result whose submitted command is non-empty. -/
theorem marvel_create_ignores_missing_source :
    (MarvelTitleCard.create m100 exec_ok sample_card false).isSome = true
    ∧ (MarvelTitleCard.create m100 exec_ok sample_card false).map
        (fun r => r.command.isEmpty) = some false := by
  rw [create_eq, fit_results_m100_sample_card]
  exact ⟨rfl, rfl⟩

/-- Claim C4 (amended): the title annotate offset and the index annotate
offsets track the same `font_vertical_shift`, but from different bases:
820 for the title and 810 for the index text, so the two offsets always
differ by 10. -/
theorem vertical_offsets_share_shift (c : MarvelTitleCard)
    (td : Dimensions) :
    (∀ y ∈ annotate_ys (MarvelTitleCard.title_text_commands c),
      y = 820 + c.font_vertical_shift)
    ∧ (∀ y ∈ annotate_ys (MarvelTitleCard.index_text_commands c td),
      y = 810 + c.font_vertical_shift) := by
  constructor
  · intro y hy
    unfold MarvelTitleCard.title_text_commands at hy
    split at hy
    · simp [annotate_ys] at hy
    · simpa [annotate_ys] using hy
  · intro y hy
    cases hs : c.hide_season_text <;> cases he : c.hide_episode_text <;>
      by_cases hp : c.episode_text_position = "compact" <;>
      simp [MarvelTitleCard.index_text_commands, hs, he, hp, annotate_ys,
        annotate_ys_append] at hy <;>
      tauto

/-- The y-offsets of a non-empty title's annotate instructions. -/
theorem title_annotate_ys (c : MarvelTitleCard)
    (h : ¬c.title_text.length = 0) :
    annotate_ys (MarvelTitleCard.title_text_commands c)
      = [820 + c.font_vertical_shift] := by
  unfold MarvelTitleCard.title_text_commands
  rw [if_neg h]
  simp [annotate_ys]

/-- Concrete instance of `vertical_offsets_share_shift`: with a vertical
shift of 5 the title annotate offset is 820 + 5. -/
theorem vertical_offsets_share_shift_witness :
    (825 : ℚ)
      = 820 + ({ sample_card with
          font_vertical_shift := 5 } : MarvelTitleCard).font_vertical_shift :=
  (vertical_offsets_share_shift
    { sample_card with font_vertical_shift := 5 } ⟨0, 0⟩).1 825
    (by rw [title_annotate_ys _ (by decide)]
        norm_num [sample_card, MarvelTitleCard.init])

/-- Claim C4 counterexample: for the default card (vertical shift 0) the
title annotate offset is 820 while both index annotate offsets are 810 —
the index offset is strictly below the title offset. -/
theorem vertical_offsets_differ :
    annotate_ys (MarvelTitleCard.title_text_commands sample_card) = [820]
    ∧ annotate_ys
        (MarvelTitleCard.index_text_commands sample_card ⟨0, 0⟩)
        = [810, 810]
    ∧ (810 : ℚ) < 820 := by
  refine ⟨?_, ?_, by norm_num⟩
  · rw [title_annotate_ys sample_card (by decide)]
    norm_num [sample_card, MarvelTitleCard.init]
  · simp only [MarvelTitleCard.index_text_commands]
    rw [if_neg (by decide)]
    simp [sample_card, MarvelTitleCard.init, annotate_ys, annotate_ys_append]

/-- Claim C5 (amended): `run` returns the captured stdout/stderr pair,
but every card-build caller discards it — the build outcome is entirely
independent of the executor's outputs, so a process failure or non-empty
stderr is never reported to the caller. -/
theorem run_output_discarded :
    (∀ (g : GenreMaker) (run run2 : Exec) (source_exists : Bool),
      GenreMaker.create run g source_exists
        = GenreMaker.create run2 g source_exists)
    ∧ (∀ (m : Measure) (run run2 : Exec) (c : MarvelTitleCard)
        (source_exists : Bool),
      MarvelTitleCard.create m run c source_exists
        = MarvelTitleCard.create m run2 c source_exists) :=
  ⟨fun _ _ _ _ => rfl, fun _ _ _ _ _ => rfl⟩

/-- Claim C5 counterexample: with an executor that reports a failure on
stderr at every invocation, the genre build returns exactly the same
result as with a clean executor, and its error report is empty — the
diagnostic output is silently swallowed. -/
theorem stderr_silently_swallowed :
    GenreMaker.create exec_err sample_genre true
      = GenreMaker.create exec_ok sample_genre true
    ∧ (exec_err (GenreMaker.resize_source_command sample_genre)).2.isEmpty
        = false
    ∧ (GenreMaker.create exec_err sample_genre true).errors = [] :=
  ⟨rfl, rfl, rfl⟩

/-- Claim C10: `modify_extras` mutates at most the `episode_text_color`
and `border_color` entries — and only when `custom_font` is false and the
key is already present — leaving every other key-value pair unchanged,
adding no new keys, and ignoring the `custom_season_titles` flag
entirely. -/
theorem modify_extras_frame (extras : MarvelTitleCard.Extras)
    (custom_font custom_season_titles : Bool) :
    (MarvelTitleCard.modify_extras extras custom_font
        custom_season_titles).map Prod.fst
      = extras.map Prod.fst
    ∧ (∀ kv ∈ extras, kv.1 ≠ "episode_text_color" → kv.1 ≠ "border_color" →
        kv ∈ MarvelTitleCard.modify_extras extras custom_font
          custom_season_titles)
    ∧ (custom_font = true →
        MarvelTitleCard.modify_extras extras custom_font custom_season_titles
          = extras)
    ∧ MarvelTitleCard.modify_extras extras custom_font true
        = MarvelTitleCard.modify_extras extras custom_font false
    ∧ (∀ kv ∈ MarvelTitleCard.modify_extras extras custom_font
          custom_season_titles,
        kv ∈ extras
          ∨ kv = ("episode_text_color", MarvelTitleCard.EPISODE_TEXT_COLOR)
          ∨ kv = ("border_color", "white")) := by
  refine ⟨?_, ?_, ?_, ?_, ?_⟩
  · rw [modify_extras_eq]
    cases custom_font with
    | true => rfl
    | false =>
        simp only [Bool.false_eq_true, if_false, List.map_map]
        refine congrFun (congrArg List.map (funext fun p => ?_)) extras
        by_cases h1 : p.1 = "episode_text_color" <;>
          by_cases h2 : p.1 = "border_color" <;>
          simp [Function.comp, h1, h2]
  · intro kv hkv h1 h2
    rw [modify_extras_eq]
    cases custom_font with
    | true => simpa using hkv
    | false =>
        simp only [Bool.false_eq_true, if_false]
        refine List.mem_map.mpr ⟨kv, hkv, ?_⟩
        simp [h1, h2]
  · intro h
    rw [modify_extras_eq, if_pos h]
  · rw [modify_extras_eq, modify_extras_eq]
  · intro kv hkv
    rw [modify_extras_eq] at hkv
    cases custom_font with
    | true => exact Or.inl (by simpa using hkv)
    | false =>
        simp only [Bool.false_eq_true, if_false] at hkv
        obtain ⟨p, hp, hpk⟩ := List.mem_map.mp hkv
        by_cases h1 : p.1 = "episode_text_color"
        · right; left
          rw [← hpk]
          simp [h1]
        · by_cases h2 : p.1 = "border_color"
          · right; right
            rw [← hpk]
            simp [h1, h2]
          · left
            rw [← hpk]
            simpa [h1, h2] using hp

/-- Concrete instance of `modify_extras_frame`: an unrelated key survives
a non-custom-font reset untouched. -/
theorem modify_extras_frame_witness :
    ("font_size", "1.2") ∈ MarvelTitleCard.modify_extras
      [("episode_text_color", "red"), ("font_size", "1.2")] false false :=
  (modify_extras_frame
      [("episode_text_color", "red"), ("font_size", "1.2")] false false).2.1
    ("font_size", "1.2") (by decide) (by decide) (by decide)

/-- Claim C7: the border group is empty exactly when `hide_border` is set;
otherwise it is the fill directive followed by the left, top and right
strips (each referencing the current `border_size`), and no drawn
rectangle starts below the top edge (a bottom strip would start at
`y = HEIGHT − strip_height > 0`). -/
theorem border_commands_spec (c : MarvelTitleCard) :
    (MarvelTitleCard.border_commands c = [] ↔ c.hide_border = true)
    ∧ (c.hide_border = false →
        MarvelTitleCard.border_commands c =
          [Instr.fill c.border_color,
           Rectangle.draw ⟨⟨0, 0⟩, ⟨c.border_size, HEIGHT⟩⟩,
           Rectangle.draw ⟨⟨0, 0⟩, ⟨WIDTH, c.border_size⟩⟩,
           Rectangle.draw ⟨⟨WIDTH - c.border_size, 0⟩, ⟨WIDTH, HEIGHT⟩⟩])
    ∧ (∀ r ∈ drawn_rectangles (MarvelTitleCard.border_commands c),
        r.start.y = 0) := by
  cases hb : c.hide_border with
  | true =>
      refine ⟨by simp [MarvelTitleCard.border_commands, hb], by simp, ?_⟩
      simp [MarvelTitleCard.border_commands, hb, drawn_rectangles]
  | false =>
      refine ⟨by simp [MarvelTitleCard.border_commands, hb], fun _ => by
        simp [MarvelTitleCard.border_commands, hb, Rectangle.draw], ?_⟩
      intro r hr
      simp only [MarvelTitleCard.border_commands, hb, Bool.false_eq_true,
        if_false, Rectangle.draw, drawn_rectangles, List.mem_cons,
        List.not_mem_nil, or_false] at hr
      rcases hr with h | h | h <;> rw [h]

/-- Concrete instance of `border_commands_spec`: the default card's
border group. -/
theorem border_commands_spec_witness :
    MarvelTitleCard.border_commands sample_card =
      [Instr.fill sample_card.border_color,
       Rectangle.draw ⟨⟨0, 0⟩, ⟨sample_card.border_size, HEIGHT⟩⟩,
       Rectangle.draw ⟨⟨0, 0⟩, ⟨WIDTH, sample_card.border_size⟩⟩,
       Rectangle.draw ⟨⟨WIDTH - sample_card.border_size, 0⟩,
         ⟨WIDTH, HEIGHT⟩⟩] :=
  (border_commands_spec sample_card).2.1 rfl

/-- Claim C8: the one command submitted to the render engine is the
concatenation, in order, of: load source, resize/stylize, resize to the
interior width, extend to full card size, border group, text-box group,
title-text group, index-text group, output-resize group, output path. -/
theorem create_command_order :
    (∀ (c : MarvelTitleCard) (td : Dimensions),
      MarvelTitleCard.build_command c td =
        [Instr.load c.source_file]
        ++ c.resize_and_style
        ++ [Instr.resizeWidth (WIDTH - 2 * c.border_size),
            Instr.extent TITLE_CARD_SIZE]
        ++ MarvelTitleCard.border_commands c
        ++ MarvelTitleCard.bottom_border_commands c
        ++ MarvelTitleCard.title_text_commands c
        ++ MarvelTitleCard.index_text_commands c td
        ++ c.resize_output
        ++ [Instr.write c.output_file])
    ∧ (∀ (m : Measure) (run : Exec) (c : MarvelTitleCard)
        (source_exists : Bool),
        (MarvelTitleCard.create m run c source_exists).map
            MarvelTitleCard.BuildResult.command
          = (MarvelTitleCard.fit_results m c).map
              (fun p => MarvelTitleCard.build_command p.1 p.2.1)) := by
  refine ⟨fun c td => rfl, fun m run c source_exists => ?_⟩
  rcases h : MarvelTitleCard.fit_results m c with _ | ⟨c2, td2, calls⟩ <;>
    simp [MarvelTitleCard.create, h]

/-- Claim C6: in `compact` mode, each index-text field that is not hidden
is annotated at `(canvas_width + title_width)/2 + 20` — season text with
east gravity, episode text with west gravity — a hidden field's group is
absent entirely (the whole group is empty when both are hidden), and a
zero title width is handled like any other. -/
theorem compact_index_positioning (c : MarvelTitleCard) (w h : ℚ)
    (hpos : c.episode_text_position = "compact") :
    (c.hide_season_text = true ∧ c.hide_episode_text = true →
      MarvelTitleCard.index_text_commands c ⟨w, h⟩ = [])
    ∧ (¬(c.hide_season_text = true ∧ c.hide_episode_text = true) →
      MarvelTitleCard.index_text_commands c ⟨w, h⟩ =
      [Instr.font MarvelTitleCard.EPISODE_TEXT_FONT,
       Instr.fill c.episode_text_color,
       Instr.pointsize (70 * c.font_size_modifier),
       Instr.kerning 1,
       Instr.interwordSpacing 15]
      ++ (if c.hide_season_text then []
          else [Instr.gravity "east",
                Instr.annotate ((WIDTH + w) / 2 + 20)
                  (810 + c.font_vertical_shift) c.season_text])
      ++ (if c.hide_episode_text then []
          else [Instr.gravity "west",
                Instr.annotate ((WIDTH + w) / 2 + 20)
                  (810 + c.font_vertical_shift) c.episode_text])) := by
  constructor
  · rintro ⟨hs, he⟩
    simp [MarvelTitleCard.index_text_commands, hs, he]
  · intro hshow
    have hb : (c.hide_season_text && c.hide_episode_text) = false := by
      cases hs : c.hide_season_text <;> cases he : c.hide_episode_text <;>
        simp_all
    simp [MarvelTitleCard.index_text_commands, hb, hpos]

/-- Concrete instance of `compact_index_positioning`: the spec's example —
season hidden, episode shown, title width 1000 on the 3200-wide canvas
puts the episode annotate offset at 2120 and emits no season group. -/
theorem compact_index_positioning_witness :
    MarvelTitleCard.index_text_commands
      { sample_card with
        episode_text_position := "compact"
        hide_season_text := true } ⟨1000, 0⟩ =
      [Instr.font MarvelTitleCard.EPISODE_TEXT_FONT,
       Instr.fill MarvelTitleCard.EPISODE_TEXT_COLOR,
       Instr.pointsize 70,
       Instr.kerning 1,
       Instr.interwordSpacing 15,
       Instr.gravity "west",
       Instr.annotate 2120 810 "EPISODE 1"] := by
  have h := (compact_index_positioning
    { sample_card with
      episode_text_position := "compact"
      hide_season_text := true } 1000 0 rfl).2
    (by simp [sample_card, MarvelTitleCard.init])
  rw [h]
  norm_num [sample_card, MarvelTitleCard.init, escape_chars, WIDTH]
  decide

/-- Claim C9: the build is a deterministic pure function of the
configuration and the measured dimensions — any metrics provider that
agrees with `m` on every measurement the build actually made yields the
identical build result (same instruction sequence, modifier and trace). -/
theorem create_deterministic_in_measurements
    (m m2 : Measure) (run : Exec) (c : MarvelTitleCard)
    (source_exists : Bool) (r : MarvelTitleCard.BuildResult)
    (hr : MarvelTitleCard.create m run c source_exists = some r)
    (hagree : ∀ p ∈ r.measurements,
      m2 p.1 p.2.1 p.2.2 = m p.1 p.2.1 p.2.2) :
    MarvelTitleCard.create m2 run c source_exists = some r := by
  rw [create_eq] at hr ⊢
  rcases hfr : MarvelTitleCard.fit_results m c with _ | ⟨c2, td2, calls⟩
  · rw [hfr] at hr
    exact Option.noConfusion hr
  · rw [hfr] at hr
    have hr' : (⟨c2.font_size_modifier,
        MarvelTitleCard.build_command c2 td2, calls⟩ :
          MarvelTitleCard.BuildResult) = r := Option.some.inj hr
    have hag : ∀ p ∈ calls, m2 p.1 p.2.1 p.2.2 = m p.1 p.2.1 p.2.2 := by
      intro p hp
      refine hagree p ?_
      rw [← hr']
      exact hp
    rw [fit_results_congr m m2 c c2 td2 calls hfr hag]
    exact hr

/-- Concrete instance of `create_deterministic_in_measurements`: swapping
`m100` for `m100b` (which differs only on a never-requested mode) leaves
the default card's build result unchanged. -/
theorem create_deterministic_in_measurements_witness :
    MarvelTitleCard.create m100b exec_ok sample_card true
      = some ⟨sample_card.font_size_modifier,
          MarvelTitleCard.build_command sample_card ⟨100, 50⟩,
          [(MarvelTitleCard.title_text_commands sample_card, "max", "sum"),
           (MarvelTitleCard.index_text_commands sample_card ⟨100, 50⟩,
             "sum", "sum")]⟩ := by
  refine create_deterministic_in_measurements m100 m100b exec_ok
    sample_card true _ ?_ ?_
  · rw [create_eq, fit_results_m100_sample_card]
    rfl
  · intro p hp
    simp only [List.mem_cons, List.not_mem_nil, or_false] at hp
    rcases hp with rfl | rfl <;> simp [m100b, m100]

/-- Under `m100`, `card1500` overflows: combined text width 240 against
interior width 200, so the fit step shrinks the card and re-measures. -/
theorem fit_results_m100_card1500 :
    MarvelTitleCard.fit_results m100 card1500
      = some (MarvelTitleCard.fitted_card m100 card1500, ⟨100, 50⟩,
          [(MarvelTitleCard.title_text_commands card1500, "max", "sum"),
           (MarvelTitleCard.index_text_commands card1500 ⟨100, 50⟩,
             "sum", "sum"),
           (MarvelTitleCard.title_text_commands
             (MarvelTitleCard.fitted_card m100 card1500), "max", "sum")]) := by
  have h1 : MarvelTitleCard.text_width m100 card1500 = 240 := by
    norm_num [MarvelTitleCard.text_width, MarvelTitleCard.title_text_dimensions,
      MarvelTitleCard.index_text_dimensions, MarvelTitleCard.margin,
      ratOfBool, m100, card1500, sample_card, MarvelTitleCard.init]
  have h2 : MarvelTitleCard.max_width card1500 = 200 := by
    norm_num [MarvelTitleCard.max_width, card1500, sample_card,
      MarvelTitleCard.init, WIDTH]
  unfold MarvelTitleCard.fit_results
  rw [if_pos (show card1500.fit_text = true from rfl),
    if_pos (show MarvelTitleCard.text_width m100 card1500
      > MarvelTitleCard.max_width card1500 by rw [h1, h2]; norm_num),
    if_neg (show ¬ MarvelTitleCard.text_width m100 card1500 = 0 by
      rw [h1]; norm_num)]
  rfl

/-- Claim C1 (amended): with `fit_text` enabled, a completed build and
physical (nonnegative) measured widths: the margin is 20 per shown index
field; on overflow (`text_width > max_width`) the modifier is set to
`max_width / text_width` — so `modifier * text_width = max_width` exactly
and `modifier < 1` — and the title is re-measured once (three provider
calls, the last at the shrunk card); without overflow the modifier stays
at its initial 1.0 and no further measurement pass occurs (two calls).
The amendment: when `text_width = 0` (all widths measure 0, both index
fields hidden) while `max_width < 0`, the code raises a division error
instead of assigning the modifier, so the claim holds exactly for the
builds that complete — see the counterexample. -/
theorem fit_text_resolver_correction
    (m : Measure) (run : Exec) (c : MarvelTitleCard) (source_exists : Bool)
    (r : MarvelTitleCard.BuildResult)
    (hfit : c.fit_text = true)
    (hmod : c.font_size_modifier = 1)
    (hw : ∀ (l : List Instr) (a b : String), 0 ≤ (m l a b).width)
    (hr : MarvelTitleCard.create m run c source_exists = some r) :
    MarvelTitleCard.margin c
        = 20 * ((if c.hide_season_text then 0 else 1)
          + (if c.hide_episode_text then 0 else 1))
    ∧ (MarvelTitleCard.text_width m c > MarvelTitleCard.max_width c →
        r.font_size_modifier
            = MarvelTitleCard.max_width c / MarvelTitleCard.text_width m c
        ∧ r.font_size_modifier * MarvelTitleCard.text_width m c
            = MarvelTitleCard.max_width c
        ∧ r.font_size_modifier < 1
        ∧ r.measurements
            = [(MarvelTitleCard.title_text_commands c, "max", "sum"),
               (MarvelTitleCard.index_text_commands c
                 (MarvelTitleCard.title_text_dimensions m c), "sum", "sum"),
               (MarvelTitleCard.title_text_commands
                 (MarvelTitleCard.fitted_card m c), "max", "sum")])
    ∧ (¬ MarvelTitleCard.text_width m c > MarvelTitleCard.max_width c →
        r.font_size_modifier = 1
        ∧ r.measurements
            = [(MarvelTitleCard.title_text_commands c, "max", "sum"),
               (MarvelTitleCard.index_text_commands c
                 (MarvelTitleCard.title_text_dimensions m c),
                 "sum", "sum")]) := by
  refine ⟨?_, ?_, ?_⟩
  · cases hs : c.hide_season_text <;> cases he : c.hide_episode_text <;>
      norm_num [MarvelTitleCard.margin, ratOfBool, hs, he]
  · intro hgt
    rw [create_eq] at hr
    unfold MarvelTitleCard.fit_results at hr
    rw [if_pos hfit, if_pos hgt] at hr
    have hne : ¬ MarvelTitleCard.text_width m c = 0 := by
      intro h0
      rw [if_pos h0] at hr
      exact Option.noConfusion hr
    rw [if_neg hne] at hr
    obtain rfl := Option.some.inj hr
    have hmarg : 0 ≤ MarvelTitleCard.margin c := by
      cases hs : c.hide_season_text <;> cases he : c.hide_episode_text <;>
        norm_num [MarvelTitleCard.margin, ratOfBool, hs, he]
    have h0le : 0 ≤ MarvelTitleCard.text_width m c := by
      have h1 := hw (MarvelTitleCard.title_text_commands c) "max" "sum"
      have h2 := hw (MarvelTitleCard.index_text_commands c
        (MarvelTitleCard.title_text_dimensions m c)) "sum" "sum"
      unfold MarvelTitleCard.text_width
      exact add_nonneg (add_nonneg h1 h2) hmarg
    have hpos : 0 < MarvelTitleCard.text_width m c :=
      lt_of_le_of_ne h0le (Ne.symm hne)
    refine ⟨rfl, ?_, ?_, rfl⟩
    · exact div_mul_cancel₀ _ hne
    · exact (div_lt_one hpos).mpr hgt
  · intro hle
    rw [create_eq] at hr
    unfold MarvelTitleCard.fit_results at hr
    rw [if_pos hfit, if_neg hle] at hr
    obtain rfl := Option.some.inj hr
    exact ⟨hmod, rfl⟩

/-- Concrete instance of `fit_text_resolver_correction`: `card1500` under
`m100` overflows (240 > 200) and the resolved modifier satisfies
`modifier * 240 = 200` exactly and is below 1. -/
theorem fit_text_resolver_correction_witness :
    (MarvelTitleCard.fitted_card m100 card1500).font_size_modifier
        * MarvelTitleCard.text_width m100 card1500
      = MarvelTitleCard.max_width card1500
    ∧ (MarvelTitleCard.fitted_card m100 card1500).font_size_modifier < 1 := by
  have hr : MarvelTitleCard.create m100 exec_ok card1500 true
      = some ⟨(MarvelTitleCard.fitted_card m100 card1500).font_size_modifier,
          MarvelTitleCard.build_command
            (MarvelTitleCard.fitted_card m100 card1500) ⟨100, 50⟩,
          [(MarvelTitleCard.title_text_commands card1500, "max", "sum"),
           (MarvelTitleCard.index_text_commands card1500 ⟨100, 50⟩,
             "sum", "sum"),
           (MarvelTitleCard.title_text_commands
             (MarvelTitleCard.fitted_card m100 card1500), "max", "sum")]⟩ := by
    rw [create_eq, fit_results_m100_card1500]
    rfl
  have hgt : MarvelTitleCard.text_width m100 card1500
      > MarvelTitleCard.max_width card1500 := by
    norm_num [MarvelTitleCard.text_width, MarvelTitleCard.title_text_dimensions,
      MarvelTitleCard.index_text_dimensions, MarvelTitleCard.margin,
      ratOfBool, m100, card1500, sample_card, MarvelTitleCard.init,
      MarvelTitleCard.max_width, WIDTH]
  have h := fit_text_resolver_correction m100 exec_ok card1500 true _
    rfl rfl (fun l a b => by norm_num [m100]) hr
  exact ⟨(h.2.1 hgt).2.1, (h.2.1 hgt).2.2.1⟩

/-- Claim C1 counterexample: with `fit_text` enabled, an oversized border
and all-zero measurements (title empty, both index fields hidden),
`text_width = 0 > max_width` holds, yet the resolver does not set
`font_size_modifier = max_width / text_width` — the Python build raises
`ZeroDivisionError` at that line, modelled as the build returning
`none`. -/
theorem fit_text_zero_width_division :
    MarvelTitleCard.create mzero exec_ok card_degenerate true = none
    ∧ MarvelTitleCard.text_width mzero card_degenerate = 0
    ∧ MarvelTitleCard.max_width card_degenerate < 0 := by
  have h0 : MarvelTitleCard.text_width mzero card_degenerate = 0 := by
    norm_num [MarvelTitleCard.text_width, MarvelTitleCard.title_text_dimensions,
      MarvelTitleCard.index_text_dimensions, MarvelTitleCard.margin,
      ratOfBool, mzero, card_degenerate, sample_card, MarvelTitleCard.init]
  have hmax : MarvelTitleCard.max_width card_degenerate < 0 := by
    norm_num [MarvelTitleCard.max_width, card_degenerate, sample_card,
      MarvelTitleCard.init, WIDTH]
  refine ⟨?_, h0, hmax⟩
  rw [create_eq]
  unfold MarvelTitleCard.fit_results
  rw [if_pos (show card_degenerate.fit_text = true from rfl),
    if_pos (show MarvelTitleCard.text_width mzero card_degenerate
      > MarvelTitleCard.max_width card_degenerate by rw [h0]; exact hmax),
    if_pos h0]
  rfl

/-- Under `m100`, `card2000` overflows against a negative interior width:
combined text width 240 against `3200 - 2 * 2000 = -800`. -/
theorem fit_results_m100_card2000 :
    MarvelTitleCard.fit_results m100 card2000
      = some (MarvelTitleCard.fitted_card m100 card2000, ⟨100, 50⟩,
          [(MarvelTitleCard.title_text_commands card2000, "max", "sum"),
           (MarvelTitleCard.index_text_commands card2000 ⟨100, 50⟩,
             "sum", "sum"),
           (MarvelTitleCard.title_text_commands
             (MarvelTitleCard.fitted_card m100 card2000), "max", "sum")]) := by
  have h1 : MarvelTitleCard.text_width m100 card2000 = 240 := by
    norm_num [MarvelTitleCard.text_width, MarvelTitleCard.title_text_dimensions,
      MarvelTitleCard.index_text_dimensions, MarvelTitleCard.margin,
      ratOfBool, m100, card2000, sample_card, MarvelTitleCard.init]
  have h2 : MarvelTitleCard.max_width card2000 = -800 := by
    norm_num [MarvelTitleCard.max_width, card2000, sample_card,
      MarvelTitleCard.init, WIDTH]
  unfold MarvelTitleCard.fit_results
  rw [if_pos (show card2000.fit_text = true from rfl),
    if_pos (show MarvelTitleCard.text_width m100 card2000
      > MarvelTitleCard.max_width card2000 by rw [h1, h2]; norm_num),
    if_neg (show ¬ MarvelTitleCard.text_width m100 card2000 = 0 by
      rw [h1]; norm_num)]
  rfl

/-- Claim C2 counterexample: with the positive border-size override 2000
(wider than half the canvas) and 100-wide measurements, the completed
build's `font_size_modifier` is `-800 / 240 = -10/3`, which is
negative. -/
theorem font_size_modifier_negative_on_oversized_border :
    (MarvelTitleCard.create m100 exec_ok card2000 true).map
        MarvelTitleCard.BuildResult.font_size_modifier
      = some (-10 / 3)
    ∧ (-10 / 3 : ℚ) < 0 := by
  constructor
  · rw [create_eq, fit_results_m100_card2000]
    simp only [Option.map_map, Option.map_some', Option.some.injEq]
    show MarvelTitleCard.max_width card2000
        / MarvelTitleCard.text_width m100 card2000 = -10 / 3
    norm_num [MarvelTitleCard.max_width, MarvelTitleCard.text_width,
      MarvelTitleCard.title_text_dimensions,
      MarvelTitleCard.index_text_dimensions, MarvelTitleCard.margin,
      ratOfBool, m100, card2000, sample_card, MarvelTitleCard.init, WIDTH]
  · norm_num

/-- Claim C2 (amended): `font_size_modifier` starts each card build at
1.0 (`__init__` sets it so), is assigned at most once — the final value
is either the initial 1 or the single text-fit quotient
`max_width / text_width` — and, for physical (nonnegative) measured
widths, never exceeds 1.0; it is nonnegative whenever the border fits
the canvas (`2 * border_size ≤ canvas width`).  The amendment drops the
unconditional "never negative": an oversized border makes `max_width`,
and with it the assigned modifier, negative (see the counterexample). -/
theorem font_size_modifier_bounds
    (m : Measure) (run : Exec) (c : MarvelTitleCard) (source_exists : Bool)
    (r : MarvelTitleCard.BuildResult)
    (hmod : c.font_size_modifier = 1)
    (hw : ∀ (l : List Instr) (a b : String), 0 ≤ (m l a b).width)
    (hr : MarvelTitleCard.create m run c source_exists = some r) :
    r.font_size_modifier ≤ 1
    ∧ (2 * c.border_size ≤ WIDTH → 0 ≤ r.font_size_modifier)
    ∧ (r.font_size_modifier = 1
        ∨ r.font_size_modifier
            = MarvelTitleCard.max_width c / MarvelTitleCard.text_width m c)
    ∧ (∀ (s1 s2 s3 s4 s5 : String) (b1 b2 : Bool) (s6 s7 : String)
        (q1 q2 q3 q4 q5 : ℚ) (s8 : String) (q6 : ℚ) (s9 s10 : String)
        (b3 b4 : Bool) (s11 : String) (q7 : ℚ) (l1 l2 : List Instr),
        (MarvelTitleCard.init s1 s2 s3 s4 s5 b1 b2 s6 s7 q1 q2 q3 q4 q5 s8
          q6 s9 s10 b3 b4 s11 q7 l1 l2).font_size_modifier = 1) := by
  rw [create_eq] at hr
  unfold MarvelTitleCard.fit_results at hr
  by_cases hf : c.fit_text = true
  · rw [if_pos hf] at hr
    by_cases hgt : MarvelTitleCard.text_width m c > MarvelTitleCard.max_width c
    · rw [if_pos hgt] at hr
      have hne : ¬ MarvelTitleCard.text_width m c = 0 := by
        intro h0
        rw [if_pos h0] at hr
        exact Option.noConfusion hr
      rw [if_neg hne] at hr
      obtain rfl := Option.some.inj hr
      have hmarg : 0 ≤ MarvelTitleCard.margin c := by
        cases hs : c.hide_season_text <;> cases he : c.hide_episode_text <;>
          norm_num [MarvelTitleCard.margin, ratOfBool, hs, he]
      have h0le : 0 ≤ MarvelTitleCard.text_width m c := by
        have h1 := hw (MarvelTitleCard.title_text_commands c) "max" "sum"
        have h2 := hw (MarvelTitleCard.index_text_commands c
          (MarvelTitleCard.title_text_dimensions m c)) "sum" "sum"
        unfold MarvelTitleCard.text_width
        exact add_nonneg (add_nonneg h1 h2) hmarg
      have hpos : 0 < MarvelTitleCard.text_width m c :=
        lt_of_le_of_ne h0le (Ne.symm hne)
      refine ⟨le_of_lt ((div_lt_one hpos).mpr hgt), ?_, Or.inr rfl,
        fun _ _ _ _ _ _ _ _ _ _ _ _ _ _ _ _ _ _ _ _ _ _ _ _ => rfl⟩
      intro hb
      have hmax : 0 ≤ MarvelTitleCard.max_width c := by
        unfold MarvelTitleCard.max_width
        linarith
      exact div_nonneg hmax (le_of_lt hpos)
    · rw [if_neg hgt] at hr
      obtain rfl := Option.some.inj hr
      exact ⟨le_of_eq hmod,
        fun _ => (show (0 : ℚ) ≤ c.font_size_modifier by
          rw [hmod]; exact zero_le_one), Or.inl hmod,
        fun _ _ _ _ _ _ _ _ _ _ _ _ _ _ _ _ _ _ _ _ _ _ _ _ => rfl⟩
  · rw [if_neg hf] at hr
    obtain rfl := Option.some.inj hr
    exact ⟨le_of_eq hmod,
      fun _ => (show (0 : ℚ) ≤ c.font_size_modifier by
        rw [hmod]; exact zero_le_one), Or.inl hmod,
      fun _ _ _ _ _ _ _ _ _ _ _ _ _ _ _ _ _ _ _ _ _ _ _ _ => rfl⟩

/-- Concrete instance of `font_size_modifier_bounds`: for `card1500`
(border within the canvas) the resolved modifier lies in `[0, 1]`. -/
theorem font_size_modifier_bounds_witness :
    (MarvelTitleCard.fitted_card m100 card1500).font_size_modifier ≤ 1
    ∧ 0 ≤ (MarvelTitleCard.fitted_card m100 card1500).font_size_modifier := by
  have hr : MarvelTitleCard.create m100 exec_ok card1500 true
      = some ⟨(MarvelTitleCard.fitted_card m100 card1500).font_size_modifier,
          MarvelTitleCard.build_command
            (MarvelTitleCard.fitted_card m100 card1500) ⟨100, 50⟩,
          [(MarvelTitleCard.title_text_commands card1500, "max", "sum"),
           (MarvelTitleCard.index_text_commands card1500 ⟨100, 50⟩,
             "sum", "sum"),
           (MarvelTitleCard.title_text_commands
             (MarvelTitleCard.fitted_card m100 card1500), "max", "sum")]⟩ := by
    rw [create_eq, fit_results_m100_card1500]
    rfl
  have h := font_size_modifier_bounds m100 exec_ok card1500 true _
    rfl (fun l a b => by norm_num [m100]) hr
  refine ⟨h.1, h.2.1 ?_⟩
  norm_num [card1500, sample_card, MarvelTitleCard.init, WIDTH]

end TitleCardMaker
